import Mathlib

set_option autoImplicit false

namespace HttpTraceExample

/-! Shallow embedding of the Go CRUD service with OpenTelemetry tracing.
The embedding follows `main.go` (the Gin variant); where the net/http
variants (`part_001`, `part_002`) differ, a second definition with the
suffix `Variant` embeds them.  Request bodies are modelled by the result
of JSON binding (`none` for a bind error, `some name` for a well-formed
body), the trace span by an explicit event list and status, and the
shared mutable state (`store`, `idSeq`) by explicit state passing. -/

/-- `Item` mirrors `type Item struct { ID int; Name string }`. -/
structure Item where
  id : Int
  name : String
deriving DecidableEq, Repr

/-- The store is an association list from ids to items, embedding the Go
    `map[int]Item` (resp. `sync.Map`): unique keys, lookup / replace / remove. -/
abbrev Store := List (Int × Item)

/-- `store.Load(id)` / `store[id]`: map lookup. -/
def mapLoad : Store → Int → Option Item
  | [], _ => none
  | (k, v) :: rest, i => if k = i then some v else mapLoad rest i

/-- `store.Store(id, item)` / `store[id] = item`: replace the binding if the
    key is present, otherwise add the new binding. -/
def mapStore : Store → Int → Item → Store
  | [], i, it => [(i, it)]
  | (k, v) :: rest, i, it =>
    if k = i then (i, it) :: rest else (k, v) :: mapStore rest i it

/-- `store.Delete(id)` / `delete(store, id)`: remove the binding for the key. -/
def mapDelete : Store → Int → Store
  | [], _ => []
  | (k, v) :: rest, i => if k = i then mapDelete rest i else (k, v) :: mapDelete rest i

/-- Whether a character is a decimal digit (codepoints 48..57). -/
def isDigitCh (c : Char) : Bool := 48 ≤ c.toNat && c.toNat ≤ 57

/-- Decimal value of a digit list (used after `isDigitCh` screening). -/
def digitsVal (l : List Char) : Nat :=
  l.foldl (fun a c => a * 10 + (c.toNat - 48)) 0

/-- Parse a non-empty, all-digit character list to its decimal value. -/
def parseDigits (l : List Char) : Option Nat :=
  if l = [] then none
  else if l.all isDigitCh then some (digitsVal l) else none

/-- Largest value of Go's 64-bit `int`. -/
def int64Max : Int := 9223372036854775807

/-- Smallest value of Go's 64-bit `int`. -/
def int64Min : Int := -9223372036854775808

/-- `strconv.Atoi`: an optional leading sign (codepoint 43 is the plus sign,
    45 the minus sign) followed by one or more decimal digits, within the range
    of 64-bit `int`; `none` embeds a non-nil error (syntax or range). -/
def atoi (s : String) : Option Int :=
  match s.toList with
  | [] => none
  | c :: rest =>
    if c.toNat = 43 then
      match parseDigits rest with
      | none => none
      | some n => if (n : Int) ≤ int64Max then some (n : Int) else none
    else if c.toNat = 45 then
      match parseDigits rest with
      | none => none
      | some n => if int64Min ≤ -(n : Int) then some (-(n : Int)) else none
    else
      match parseDigits (c :: rest) with
      | none => none
      | some n => if (n : Int) ≤ int64Max then some (n : Int) else none

/-- Span status: OTel `codes.Unset` vs `codes.Error` (the code never sets Ok). -/
inductive SpanStatus
  | unset
  | error
deriving DecidableEq, Repr

/-- An error event recorded on a span: `RecordError(err)` as in main.go,
    `RecordError` with the `http.status_text` attribute as in the variants, or
    the panic-recovery event with escaped flag, type name, message and stack. -/
inductive SpanEvent
  | err (msg : String)
  | errWithStatusText (msg : String) (statusTxt : String)
  | escapedPanic (escaped : Bool) (typeName : String) (msg : String) (stack : String)
deriving DecidableEq, Repr

/-- The request span: recorded events and current status. -/
structure Span where
  events : List SpanEvent
  status : SpanStatus
deriving DecidableEq, Repr

/-- The body written with an HTTP response. -/
inductive RespBody
  | jsonItem (it : Item)
  | jsonItems (l : List Item)
  | jsonError (msg : String)
  | empty
deriving DecidableEq, Repr

/-- An HTTP response: status code and body. -/
structure Response where
  status : Nat
  body : RespBody
deriving DecidableEq, Repr

/-- `respondError` of main.go: always `span.RecordError(err)`; set the span
    status to Error only when the HTTP status is 5xx; respond with the error. -/
def respondError (sp : Span) (msg : String) (status : Nat) : Span × Response :=
  let sp1 : Span := { events := sp.events ++ [SpanEvent.err msg], status := sp.status }
  let sp2 : Span :=
    if 500 ≤ status then { events := sp1.events, status := SpanStatus.error } else sp1
  (sp2, { status := status, body := RespBody.jsonError msg })

/-- `http.StatusText` restricted to the codes this service produces. -/
def statusText (status : Nat) : String :=
  if status = 400 then "Bad Request"
  else if status = 404 then "Not Found"
  else if status = 500 then "Internal Server Error"
  else ""

/-- `respondError` of the net/http variants (part_001 / part_002): records the
    error event with an `http.status_text` attribute and then unconditionally
    runs `span.SetStatus(codes.Error, ...)`, whatever the HTTP status. -/
def respondErrorVariant (sp : Span) (msg : String) (status : Nat) : Span × Response :=
  ({ events := sp.events ++ [SpanEvent.errWithStatusText msg (statusText status)],
     status := SpanStatus.error },
   { status := status, body := RespBody.jsonError msg })

/-- The shared mutable state: the store map and the id counter `idSeq`. -/
structure AppState where
  store : Store
  idSeq : Int
deriving DecidableEq, Repr

/-- Result of one handler run: new shared state, annotated span, response. -/
abbrev HandlerResult := AppState × Span × Response

/-- `createItem`: bind the JSON body (`none` embeds a bind error, answered with
    400); on success allocate `id := idSeq + 1` (the atomic `idSeq.Add(1)`),
    store `Item{ID: id, Name: in.Name}` and respond 201 with the item. -/
def createItem (st : AppState) (sp : Span) (body : Option String) : HandlerResult :=
  match body with
  | none =>
    let pr := respondError sp "bind error" 400
    (st, pr.1, pr.2)
  | some name =>
    let i := st.idSeq + 1
    let item : Item := { id := i, name := name }
    ({ store := mapStore st.store i item, idSeq := i }, sp,
     { status := 201, body := RespBody.jsonItem item })

/-- `listItems`: a snapshot of the stored values, respond 200. -/
def listItems (st : AppState) (sp : Span) : HandlerResult :=
  (st, sp, { status := 200, body := RespBody.jsonItems (st.store.map Prod.snd) })

/-- `getItem`: parse the id (400 on failure), load it (404 when absent),
    otherwise respond 200 with the item. -/
def getItem (st : AppState) (sp : Span) (idStr : String) : HandlerResult :=
  match atoi idStr with
  | none =>
    let pr := respondError sp "invalid id" 400
    (st, pr.1, pr.2)
  | some i =>
    match mapLoad st.store i with
    | none =>
      let pr := respondError sp "not found" 404
      (st, pr.1, pr.2)
    | some item => (st, sp, { status := 200, body := RespBody.jsonItem item })

/-- `updateItem`: parse the id (400), load the item (404), bind the body (400),
    then store the loaded item with only its name replaced and respond 200. -/
def updateItem (st : AppState) (sp : Span) (idStr : String) (body : Option String) :
    HandlerResult :=
  match atoi idStr with
  | none =>
    let pr := respondError sp "invalid id" 400
    (st, pr.1, pr.2)
  | some i =>
    match mapLoad st.store i with
    | none =>
      let pr := respondError sp "not found" 404
      (st, pr.1, pr.2)
    | some item =>
      match body with
      | none =>
        let pr := respondError sp "bind error" 400
        (st, pr.1, pr.2)
      | some newName =>
        let item2 : Item := { id := item.id, name := newName }
        ({ store := mapStore st.store i item2, idSeq := st.idSeq }, sp,
         { status := 200, body := RespBody.jsonItem item2 })

/-- `deleteItem`: parse the id (400), check presence (404), delete the binding
    and respond 204 with no content. -/
def deleteItem (st : AppState) (sp : Span) (idStr : String) : HandlerResult :=
  match atoi idStr with
  | none =>
    let pr := respondError sp "invalid id" 400
    (st, pr.1, pr.2)
  | some i =>
    match mapLoad st.store i with
    | none =>
      let pr := respondError sp "not found" 404
      (st, pr.1, pr.2)
    | some _ =>
      ({ store := mapDelete st.store i, idSeq := st.idSeq }, sp,
       { status := 204, body := RespBody.empty })

/-- The `/fail` route: an explicitly signaled internal failure, answered
    through `respondError` with `http.StatusInternalServerError`. -/
def failHandler (st : AppState) (sp : Span) : HandlerResult :=
  let pr := respondError sp "simulated server failure" 500
  (st, pr.1, pr.2)

/-- The dynamic information of a recovered panic value: its type name
    (`%T` formatting of `rec`) and its message (`fmt.Sprint(rec)`). -/
structure PanicValue where
  typeName : String
  msg : String
deriving DecidableEq, Repr

/-- What a handler body does: return normally, or unwind with a panic. -/
inductive HandlerOutcome
  | normal (res : HandlerResult)
  | panicked (st : AppState) (sp : Span) (pv : PanicValue)
deriving DecidableEq, Repr

/-- `recoveryWithOtel` of main.go: a normal return passes through untouched; a
    panic is recovered by the deferred guard, recorded on the span as an error
    event carrying the escaped flag, the type name, the message and the stack
    trace captured by `debug.Stack()` (the `stack` argument), the span status
    is forced to Error, and a 500 response with no body is emitted.  The
    function is total: the fault never escapes the request boundary. -/
def recoveryWithOtel (stack : String) : HandlerOutcome → HandlerResult
  | HandlerOutcome.normal res => res
  | HandlerOutcome.panicked st sp pv =>
    let sp2 : Span :=
      { events := sp.events ++ [SpanEvent.escapedPanic true pv.typeName pv.msg stack],
        status := SpanStatus.error }
    (st, sp2, { status := 500, body := RespBody.empty })

/-- The `/panic` route: `panic("simulated panic")`, a Go `string` value. -/
def panicHandler (st : AppState) (sp : Span) : HandlerOutcome :=
  HandlerOutcome.panicked st sp { typeName := "string", msg := "simulated panic" }

/-- First half of `updateItem` as the code executes it: the `store.Load(id)`
    existence check (its own lock acquisition in the net/http variants). -/
def updateCheck (st : AppState) (i : Int) : Option Item := mapLoad st.store i

/-- Second half of `updateItem`: after body binding, the `store.Store(id, item)`
    write (a second, separate lock acquisition in the net/http variants). -/
def updateAct (st : AppState) (i : Int) (item : Item) (newName : String) : AppState :=
  { store := mapStore st.store i { id := item.id, name := newName }, idSeq := st.idSeq }

/-- A whole `deleteItem` check-and-remove on id `i`, as one atomic step that
    the scheduler can place between `updateCheck` and `updateAct`; the Bool
    reports whether the id was present (a completed 204 delete). -/
def deleteStep (st : AppState) (i : Int) : AppState × Bool :=
  match mapLoad st.store i with
  | some _ => ({ store := mapDelete st.store i, idSeq := st.idSeq }, true)
  | none => (st, false)

/-- The ids returned by a sequence of successful `createItem` calls, read off
    the 201 response bodies, in issuance order. -/
def createSeq (st : AppState) (sp : Span) : List String → List Int
  | [] => []
  | n :: ns =>
    match createItem st sp (some n) with
    | (st2, sp2, r) =>
      (match r.body with
       | RespBody.jsonItem it => it.id
       | _ => 0) :: createSeq st2 sp2 ns

/-- The store invariant: keys are pairwise distinct, and every key equals the
    `id` field of the item stored under it. -/
def StoreInv (s : Store) : Prop :=
  (s.map Prod.fst).Nodup ∧ ∀ p ∈ s, (p.2).id = p.1

/-! Shared lemmas about the store operations. -/

theorem mapLoad_mapStore_self (s : Store) (k : Int) (v : Item) :
    mapLoad (mapStore s k v) k = some v := by
  induction s with
  | nil => simp [mapStore, mapLoad]
  | cons p rest ih =>
    obtain ⟨k1, v1⟩ := p
    by_cases h : k1 = k
    · simp [mapStore, h, mapLoad]
    · simp [mapStore, h, mapLoad, ih]

theorem mapLoad_mapStore_ne (s : Store) (k j : Int) (v : Item) (h : j ≠ k) :
    mapLoad (mapStore s k v) j = mapLoad s j := by
  induction s with
  | nil =>
    have h2 : ¬ (k = j) := fun hh => h (hh.symm)
    simp [mapStore, mapLoad, h2]
  | cons p rest ih =>
    obtain ⟨k1, v1⟩ := p
    by_cases h1 : k1 = k
    · subst h1
      have h2 : ¬ (k1 = j) := fun hh => h (hh.symm)
      simp [mapStore, mapLoad, h2]
    · by_cases h2 : k1 = j
      · subst h2
        simp [mapStore, h1, mapLoad]
      · simp [mapStore, h1, mapLoad, h2, ih]

theorem mapLoad_mapDelete_self (s : Store) (k : Int) :
    mapLoad (mapDelete s k) k = none := by
  induction s with
  | nil => simp [mapDelete, mapLoad]
  | cons p rest ih =>
    obtain ⟨k1, v1⟩ := p
    by_cases h : k1 = k
    · simp [mapDelete, h, ih]
    · simp [mapDelete, h, mapLoad, ih]

theorem mapLoad_mapDelete_ne (s : Store) (k j : Int) (h : j ≠ k) :
    mapLoad (mapDelete s k) j = mapLoad s j := by
  induction s with
  | nil => simp [mapDelete]
  | cons p rest ih =>
    obtain ⟨k1, v1⟩ := p
    by_cases h1 : k1 = k
    · subst h1
      have h2 : ¬ (k1 = j) := fun hh => h (hh.symm)
      simp [mapDelete, mapLoad, h2, ih]
    · by_cases h2 : k1 = j
      · subst h2
        simp [mapDelete, h1, mapLoad]
      · simp [mapDelete, h1, mapLoad, h2, ih]

theorem mapLoad_mem (s : Store) (i : Int) (it : Item) (h : mapLoad s i = some it) :
    (i, it) ∈ s := by
  induction s with
  | nil => simp [mapLoad] at h
  | cons p rest ih =>
    obtain ⟨k1, v1⟩ := p
    by_cases h1 : k1 = i
    · subst h1
      simp [mapLoad] at h
      subst h
      exact List.mem_cons_self _ _
    · simp [mapLoad, h1] at h
      exact List.mem_cons_of_mem _ (ih h)

theorem mem_keys_mapStore (s : Store) (k j : Int) (v : Item)
    (h : j ∈ (mapStore s k v).map Prod.fst) : j ∈ s.map Prod.fst ∨ j = k := by
  induction s with
  | nil => simp [mapStore] at h; simp [h]
  | cons p rest ih =>
    obtain ⟨k1, v1⟩ := p
    by_cases h1 : k1 = k
    · subst h1
      simp [mapStore] at h
      rcases h with h | h
      · simp [h]
      · exact Or.inl (by simp [h])
    · simp [mapStore, h1] at h
      rcases h with h | h
      · simp [h]
      · rcases ih (by simpa using h) with hh | hh
        · exact Or.inl (by simp [hh])
        · exact Or.inr hh

theorem keys_mapStore_nodup (s : Store) (k : Int) (v : Item)
    (h : (s.map Prod.fst).Nodup) : ((mapStore s k v).map Prod.fst).Nodup := by
  induction s with
  | nil => simp [mapStore]
  | cons p rest ih =>
    obtain ⟨k1, v1⟩ := p
    rw [List.map_cons, List.nodup_cons] at h
    by_cases h1 : k1 = k
    · subst h1
      rw [mapStore, if_pos rfl, List.map_cons, List.nodup_cons]
      exact h
    · rw [mapStore, if_neg h1, List.map_cons, List.nodup_cons]
      refine ⟨?_, ih h.2⟩
      intro hmem
      rcases mem_keys_mapStore rest k k1 v hmem with hh | hh
      · exact h.1 hh
      · exact h1 hh

theorem mem_mapStore (s : Store) (k : Int) (v : Item) (p : Int × Item)
    (h : p ∈ mapStore s k v) : p = (k, v) ∨ p ∈ s := by
  induction s with
  | nil => simp [mapStore] at h; simp [h]
  | cons q rest ih =>
    obtain ⟨k1, v1⟩ := q
    by_cases h1 : k1 = k
    · subst h1
      simp [mapStore] at h
      rcases h with h | h
      · simp [h]
      · exact Or.inr (List.mem_cons_of_mem _ h)
    · simp [mapStore, h1] at h
      rcases h with h | h
      · exact Or.inr (by simp [h])
      · rcases ih h with hh | hh
        · exact Or.inl hh
        · exact Or.inr (List.mem_cons_of_mem _ hh)

theorem mem_mapDelete (s : Store) (k : Int) (p : Int × Item)
    (h : p ∈ mapDelete s k) : p ∈ s := by
  induction s with
  | nil => simp [mapDelete] at h
  | cons q rest ih =>
    obtain ⟨k1, v1⟩ := q
    by_cases h1 : k1 = k
    · simp [mapDelete, h1] at h
      exact List.mem_cons_of_mem _ (ih h)
    · simp [mapDelete, h1] at h
      rcases h with h | h
      · simp [h]
      · exact List.mem_cons_of_mem _ (ih h)

theorem keys_mapDelete_sublist (s : Store) (k : Int) :
    ((mapDelete s k).map Prod.fst).Sublist (s.map Prod.fst) := by
  induction s with
  | nil => simp [mapDelete]
  | cons q rest ih =>
    obtain ⟨k1, v1⟩ := q
    by_cases h1 : k1 = k
    · simp [mapDelete, h1]
      exact ih.trans (List.sublist_cons_self _ _)
    · simpa [mapDelete, h1] using ih.cons₂ k1

theorem keys_mapDelete_nodup (s : Store) (k : Int)
    (h : (s.map Prod.fst).Nodup) : ((mapDelete s k).map Prod.fst).Nodup :=
  h.sublist (keys_mapDelete_sublist s k)

theorem storeInv_mapStore (s : Store) (k : Int) (v : Item)
    (h : StoreInv s) (hv : v.id = k) : StoreInv (mapStore s k v) := by
  refine ⟨keys_mapStore_nodup s k v h.1, ?_⟩
  intro p hp
  rcases mem_mapStore s k v p hp with hh | hh
  · simp [hh, hv]
  · exact h.2 p hh

theorem storeInv_mapDelete (s : Store) (k : Int) (h : StoreInv s) :
    StoreInv (mapDelete s k) :=
  ⟨keys_mapDelete_nodup s k h.1, fun p hp => h.2 p (mem_mapDelete s k p hp)⟩

/-! Lemmas about sequences of `createItem` calls. -/

theorem createSeq_cons (st : AppState) (sp : Span) (n : String) (ns : List String) :
    createSeq st sp (n :: ns) =
      (st.idSeq + 1) ::
        createSeq
          { store := mapStore st.store (st.idSeq + 1) { id := st.idSeq + 1, name := n },
            idSeq := st.idSeq + 1 } sp ns := rfl

theorem createSeq_gt (names : List String) :
    ∀ (st : AppState) (sp : Span) (x : Int), x ∈ createSeq st sp names → st.idSeq < x := by
  induction names with
  | nil =>
    intro st sp x hx
    simp [createSeq] at hx
  | cons n ns ih =>
    intro st sp x hx
    rw [createSeq_cons] at hx
    rcases List.mem_cons.mp hx with h | h
    · omega
    · have hx2 := ih _ sp x h
      simp at hx2
      omega

theorem createSeq_pairwise (names : List String) :
    ∀ (st : AppState) (sp : Span),
      List.Pairwise (fun a b => a < b) (createSeq st sp names) := by
  induction names with
  | nil => intro st sp; simp [createSeq]
  | cons n ns ih =>
    intro st sp
    rw [createSeq_cons]
    refine List.Pairwise.cons ?_ (ih _ sp)
    intro x hx
    have hx2 := createSeq_gt ns _ sp x hx
    simp at hx2
    omega

theorem createSeq_head (st : AppState) (sp : Span) (n : String) (ns : List String) :
    (createSeq st sp (n :: ns)).head? = some (st.idSeq + 1) := by
  rw [createSeq_cons]
  rfl

/-! Claim theorems. -/

/-- Claim C1, amended: in main.go, `respondError` always records an error event
    on the span and sets the span status to Error exactly when the HTTP status
    is at least 500 (so 400/404 ClientFault outcomes never mark the span
    failed); the net/http variants' `respondError`, however, sets the span
    status to Error for every handled error outcome, whatever the status. -/
theorem respondError_status_policy (sp : Span) (msg : String) (status : Nat)
    (h : sp.status = SpanStatus.unset) :
    SpanEvent.err msg ∈ (respondError sp msg status).1.events ∧
    ((respondError sp msg status).1.status = SpanStatus.error ↔ 500 ≤ status) ∧
    (respondErrorVariant sp msg status).1.status = SpanStatus.error := by
  by_cases hs : 500 ≤ status
  · refine ⟨?_, ?_, rfl⟩ <;> simp [respondError, hs]
  · refine ⟨?_, ?_, rfl⟩ <;> simp [respondError, hs, h]

/-- Claim C1 witness: at a 404 outcome on a fresh span, main.go records the
    event and leaves the span status unset. -/
theorem respondError_status_policy_witness :
    SpanEvent.err "not found" ∈
      (respondError { events := [], status := SpanStatus.unset } "not found" 404).1.events ∧
    ((respondError { events := [], status := SpanStatus.unset } "not found" 404).1.status =
        SpanStatus.error ↔ 500 ≤ 404) ∧
    (respondErrorVariant { events := [], status := SpanStatus.unset } "not found" 404).1.status =
      SpanStatus.error :=
  respondError_status_policy { events := [], status := SpanStatus.unset } "not found" 404 rfl

/-- Claim C1 counterexample: in the net/http variants a ClientFault outcome
    with HTTP status 404 nevertheless sets the span status to Error, refuting
    the claimed equivalence with status at least 500. -/
theorem respondErrorVariant_marks_404_failed :
    (respondErrorVariant { events := [], status := SpanStatus.unset } "not found" 404).1.status =
      SpanStatus.error ∧ ¬ (500 ≤ 404) := by
  exact ⟨rfl, by decide⟩

/-- Claim C2: a panic unwinding out of the operation body is intercepted by the
    recovery middleware: the span receives an error event carrying the escaped
    flag, the fault's dynamic type name, its message and the captured stack
    trace, the span status is forced to Error, and a 500 response is emitted;
    the recovery function is total, so the fault never escapes the request
    boundary (in particular the `/panic` route behaves this way). -/
theorem panic_recovered (stack : String) (st : AppState) (sp : Span) (pv : PanicValue) :
    SpanEvent.escapedPanic true pv.typeName pv.msg stack ∈
      (recoveryWithOtel stack (HandlerOutcome.panicked st sp pv)).2.1.events ∧
    (recoveryWithOtel stack (HandlerOutcome.panicked st sp pv)).2.1.status = SpanStatus.error ∧
    (recoveryWithOtel stack (HandlerOutcome.panicked st sp pv)).2.2.status = 500 ∧
    recoveryWithOtel stack (panicHandler st sp) =
      (st,
       { events := sp.events ++ [SpanEvent.escapedPanic true "string" "simulated panic" stack],
         status := SpanStatus.error },
       { status := 500, body := RespBody.empty }) := by
  refine ⟨?_, rfl, rfl, rfl⟩
  simp [recoveryWithOtel]

/-- Claim C3: the error classifier of the handlers: an unparseable identifier
    yields 400 on get/update/delete, a malformed body yields 400 on create and
    update, a well-formed identifier absent from the store yields 404 on
    get/update/delete, and the explicitly signaled internal failure of `/fail`
    yields 500. -/
theorem classifier_statuses (st : AppState) (sp : Span) (idStr : String)
    (body : Option String) (i : Int) :
    (atoi idStr = none →
      (getItem st sp idStr).2.2.status = 400 ∧
      (updateItem st sp idStr body).2.2.status = 400 ∧
      (deleteItem st sp idStr).2.2.status = 400) ∧
    (createItem st sp none).2.2.status = 400 ∧
    (atoi idStr = some i → mapLoad st.store i = none →
      (getItem st sp idStr).2.2.status = 404 ∧
      (updateItem st sp idStr body).2.2.status = 404 ∧
      (deleteItem st sp idStr).2.2.status = 404) ∧
    (∀ item, atoi idStr = some i → mapLoad st.store i = some item →
      (updateItem st sp idStr none).2.2.status = 400) ∧
    (failHandler st sp).2.2.status = 500 := by
  refine ⟨?_, rfl, ?_, ?_, rfl⟩
  · intro hA
    exact ⟨by simp [getItem, hA, respondError],
           by simp [updateItem, hA, respondError],
           by simp [deleteItem, hA, respondError]⟩
  · intro hA hL
    exact ⟨by simp [getItem, hA, hL, respondError],
           by simp [updateItem, hA, hL, respondError],
           by simp [deleteItem, hA, hL, respondError]⟩
  · intro item hA hL
    simp [updateItem, hA, hL, respondError]

/-- Claim C3 witness: the identifier "abc" is rejected with 400, the absent id
    999 answers 404, a malformed update body answers 400, and `/fail` answers
    500. -/
theorem classifier_statuses_witness :
    (getItem { store := [], idSeq := 0 } { events := [], status := SpanStatus.unset } "abc").2.2.status = 400 ∧
    (getItem { store := [], idSeq := 0 } { events := [], status := SpanStatus.unset } "999").2.2.status = 404 ∧
    (updateItem { store := [((1 : Int), { id := 1, name := "widget" })], idSeq := 1 }
      { events := [], status := SpanStatus.unset } "1" none).2.2.status = 400 ∧
    (failHandler { store := [], idSeq := 0 } { events := [], status := SpanStatus.unset }).2.2.status = 500 := by
  refine ⟨?_, ?_, ?_, ?_⟩
  · exact ((classifier_statuses { store := [], idSeq := 0 }
      { events := [], status := SpanStatus.unset } "abc" none 0).1 (by decide)).1
  · exact (((classifier_statuses { store := [], idSeq := 0 }
      { events := [], status := SpanStatus.unset } "999" none 999).2.2.1 (by decide) (by decide))).1
  · exact ((classifier_statuses { store := [((1 : Int), { id := 1, name := "widget" })], idSeq := 1 }
      { events := [], status := SpanStatus.unset } "1" none 1).2.2.2.1
      { id := 1, name := "widget" } (by decide) (by decide))
  · exact (classifier_statuses { store := [], idSeq := 0 }
      { events := [], status := SpanStatus.unset } "x" none 0).2.2.2.2

/-- Claim C4: the id allocator is strictly monotonic: the ids returned by any
    sequence of `createItem` calls are strictly increasing in issuance order,
    hence pairwise distinct, and when the counter starts at 0 the first
    allocated id is 1. -/
theorem allocator_monotonic (st : AppState) (sp : Span) (names : List String) :
    List.Pairwise (fun a b => a < b) (createSeq st sp names) ∧
    List.Pairwise (fun a b => a ≠ b) (createSeq st sp names) ∧
    (st.idSeq = 0 → ∀ n ns, names = n :: ns → (createSeq st sp names).head? = some 1) := by
  refine ⟨createSeq_pairwise names st sp,
          (createSeq_pairwise names st sp).imp (fun hab => ne_of_lt hab), ?_⟩
  intro h0 n ns hn
  subst hn
  rw [createSeq_head]
  simp [h0]

/-- Claim C4 witness: creating "widget" then "gadget" from a fresh state issues
    the strictly increasing, distinct ids 1 and 2. -/
theorem allocator_monotonic_witness :
    List.Pairwise (fun a b : Int => a < b)
      (createSeq { store := [], idSeq := 0 } { events := [], status := SpanStatus.unset }
        ["widget", "gadget"]) ∧
    (createSeq { store := [], idSeq := 0 } { events := [], status := SpanStatus.unset }
      ["widget", "gadget"]).head? = some 1 :=
  ⟨(allocator_monotonic { store := [], idSeq := 0 } { events := [], status := SpanStatus.unset }
      ["widget", "gadget"]).1,
   (allocator_monotonic { store := [], idSeq := 0 } { events := [], status := SpanStatus.unset }
      ["widget", "gadget"]).2.2 rfl "widget" ["gadget"] rfl⟩

/-- Claim C5: the store invariant (every key equals the id field of the item
    stored under it, and no two entries share an id) is preserved by every
    operation: create, get, list, update and delete. -/
theorem store_invariant_preserved (st : AppState) (sp : Span) (idStr : String)
    (body : Option String) (h : StoreInv st.store) :
    StoreInv (createItem st sp body).1.store ∧
    StoreInv (getItem st sp idStr).1.store ∧
    StoreInv (listItems st sp).1.store ∧
    StoreInv (updateItem st sp idStr body).1.store ∧
    StoreInv (deleteItem st sp idStr).1.store := by
  refine ⟨?_, ?_, ?_, ?_, ?_⟩
  · cases body with
    | none => simpa [createItem, respondError] using h
    | some name =>
      simpa [createItem] using
        storeInv_mapStore st.store (st.idSeq + 1)
          { id := st.idSeq + 1, name := name } h rfl
  · cases hA : atoi idStr with
    | none => simpa [getItem, hA, respondError] using h
    | some i =>
      cases hL : mapLoad st.store i with
      | none => simpa [getItem, hA, hL, respondError] using h
      | some item => simpa [getItem, hA, hL] using h
  · simpa [listItems] using h
  · cases hA : atoi idStr with
    | none => simpa [updateItem, hA, respondError] using h
    | some i =>
      cases hL : mapLoad st.store i with
      | none => simpa [updateItem, hA, hL, respondError] using h
      | some item =>
        cases body with
        | none => simpa [updateItem, hA, hL, respondError] using h
        | some newName =>
          have hid : item.id = i := h.2 (i, item) (mapLoad_mem st.store i item hL)
          simpa [updateItem, hA, hL] using
            storeInv_mapStore st.store i { id := item.id, name := newName } h hid
  · cases hA : atoi idStr with
    | none => simpa [deleteItem, hA, respondError] using h
    | some i =>
      cases hL : mapLoad st.store i with
      | none => simpa [deleteItem, hA, hL, respondError] using h
      | some item => simpa [deleteItem, hA, hL] using storeInv_mapDelete st.store i h
/-- Claim C5 witness: the invariant holds on a one-entry store and is kept by a
    create on that store. -/
theorem store_invariant_preserved_witness :
    StoreInv [((1 : Int), { id := 1, name := "widget" })] ∧
    StoreInv (createItem { store := [((1 : Int), { id := 1, name := "widget" })], idSeq := 1 }
      { events := [], status := SpanStatus.unset } (some "gadget")).1.store := by
  have h : StoreInv [((1 : Int), ({ id := 1, name := "widget" } : Item))] := by
    unfold StoreInv
    exact ⟨by decide, by decide⟩
  exact ⟨h, (store_invariant_preserved
    { store := [((1 : Int), { id := 1, name := "widget" })], idSeq := 1 }
    { events := [], status := SpanStatus.unset } "1" (some "gadget") h).1⟩

/-- Claim C6: a `createItem` with a well-formed name responds 201 with the new
    resource, and an immediately following `getItem` of the allocated id
    returns the same resource with the name unchanged. -/
theorem create_then_get (st : AppState) (sp sp2 : Span) (name idStr : String)
    (h : atoi idStr = some (st.idSeq + 1)) :
    (createItem st sp (some name)).2.2 =
      { status := 201, body := RespBody.jsonItem { id := st.idSeq + 1, name := name } } ∧
    getItem (createItem st sp (some name)).1 sp2 idStr =
      ((createItem st sp (some name)).1, sp2,
       { status := 200, body := RespBody.jsonItem { id := st.idSeq + 1, name := name } }) := by
  constructor
  · rfl
  · simp [createItem, getItem, h, mapLoad_mapStore_self]

/-- Claim C6 witness: creating "widget" in the empty state and getting id 1
    right after returns the created resource. -/
theorem create_then_get_witness :
    atoi "1" = some (0 + 1) ∧
    getItem (createItem { store := [], idSeq := 0 } { events := [], status := SpanStatus.unset }
        (some "widget")).1 { events := [], status := SpanStatus.unset } "1" =
      ((createItem { store := [], idSeq := 0 } { events := [], status := SpanStatus.unset }
        (some "widget")).1, { events := [], status := SpanStatus.unset },
       { status := 200, body := RespBody.jsonItem { id := 0 + 1, name := "widget" } }) :=
  ⟨by decide,
   (create_then_get { store := [], idSeq := 0 } { events := [], status := SpanStatus.unset }
     { events := [], status := SpanStatus.unset } "widget" "1" (by decide)).2⟩

/-- Claim C7: updating an existing id replaces only the name of that entry (its
    id field is kept), leaves every other entry and the id counter untouched,
    and a subsequent get of the same id returns the new name. -/
theorem update_frame (st : AppState) (sp sp2 : Span) (idStr newName : String)
    (i : Int) (item : Item)
    (hp : atoi idStr = some i) (hl : mapLoad st.store i = some item) :
    mapLoad (updateItem st sp idStr (some newName)).1.store i =
      some { id := item.id, name := newName } ∧
    (∀ j, j ≠ i →
      mapLoad (updateItem st sp idStr (some newName)).1.store j = mapLoad st.store j) ∧
    (updateItem st sp idStr (some newName)).1.idSeq = st.idSeq ∧
    getItem (updateItem st sp idStr (some newName)).1 sp2 idStr =
      ((updateItem st sp idStr (some newName)).1, sp2,
       { status := 200, body := RespBody.jsonItem { id := item.id, name := newName } }) := by
  refine ⟨?_, ?_, ?_, ?_⟩
  · simp [updateItem, hp, hl, mapLoad_mapStore_self]
  · intro j hj
    simp [updateItem, hp, hl, mapLoad_mapStore_ne st.store i j _ hj]
  · simp [updateItem, hp, hl]
  · simp [getItem, updateItem, hp, hl, mapLoad_mapStore_self]

/-- Claim C7 witness: updating id 1 of a two-entry store to "widget v2" leaves
    entry 2 untouched and a get of id 1 returns the new name. -/
theorem update_frame_witness :
    mapLoad (updateItem
      { store := [((1 : Int), { id := 1, name := "widget" }),
                  ((2 : Int), { id := 2, name := "gadget" })], idSeq := 2 }
      { events := [], status := SpanStatus.unset } "1" (some "widget v2")).1.store 1 =
      some { id := 1, name := "widget v2" } ∧
    mapLoad (updateItem
      { store := [((1 : Int), { id := 1, name := "widget" }),
                  ((2 : Int), { id := 2, name := "gadget" })], idSeq := 2 }
      { events := [], status := SpanStatus.unset } "1" (some "widget v2")).1.store 2 =
      mapLoad [((1 : Int), { id := 1, name := "widget" }),
               ((2 : Int), { id := 2, name := "gadget" })] 2 := by
  have hw := update_frame
    { store := [((1 : Int), { id := 1, name := "widget" }),
                ((2 : Int), { id := 2, name := "gadget" })], idSeq := 2 }
    { events := [], status := SpanStatus.unset } { events := [], status := SpanStatus.unset }
    "1" "widget v2" 1 { id := 1, name := "widget" } (by decide) (by decide)
  exact ⟨hw.1, hw.2.1 2 (by decide)⟩

/-- Claim C8: a delete followed by a get of the same id answers 404 whatever
    the prior state, and a delete of an absent id itself answers 404 as an
    ordinary value (the handler is a total function, not a panic). -/
theorem delete_semantics (st : AppState) (sp1 sp2 sp3 : Span) (idStr : String) (i : Int)
    (hp : atoi idStr = some i) :
    (getItem (deleteItem st sp1 idStr).1 sp2 idStr).2.2.status = 404 ∧
    (mapLoad st.store i = none →
      deleteItem st sp3 idStr =
        (st, (respondError sp3 "not found" 404).1, (respondError sp3 "not found" 404).2)) := by
  constructor
  · cases hL : mapLoad st.store i with
    | none => simp [deleteItem, hp, hL, getItem, respondError]
    | some item => simp [deleteItem, hp, hL, getItem, mapLoad_mapDelete_self, respondError]
  · intro hL
    simp [deleteItem, hp, hL]

/-- Claim C8 witness: deleting id 1 of a one-entry store then getting it
    answers 404, and deleting the absent id 999 answers 404 as a value. -/
theorem delete_semantics_witness :
    (getItem (deleteItem { store := [((1 : Int), { id := 1, name := "widget" })], idSeq := 1 }
        { events := [], status := SpanStatus.unset } "1").1
      { events := [], status := SpanStatus.unset } "1").2.2.status = 404 ∧
    deleteItem { store := [((1 : Int), { id := 1, name := "widget" })], idSeq := 1 }
        { events := [], status := SpanStatus.unset } "999" =
      ({ store := [((1 : Int), { id := 1, name := "widget" })], idSeq := 1 },
       (respondError { events := [], status := SpanStatus.unset } "not found" 404).1,
       (respondError { events := [], status := SpanStatus.unset } "not found" 404).2) :=
  ⟨(delete_semantics { store := [((1 : Int), { id := 1, name := "widget" })], idSeq := 1 }
      { events := [], status := SpanStatus.unset } { events := [], status := SpanStatus.unset }
      { events := [], status := SpanStatus.unset } "1" 1 (by decide)).1,
   (delete_semantics { store := [((1 : Int), { id := 1, name := "widget" })], idSeq := 1 }
      { events := [], status := SpanStatus.unset } { events := [], status := SpanStatus.unset }
      { events := [], status := SpanStatus.unset } "999" 999 (by decide)).2 (by decide)⟩

/-- The success path of `updateItem` is exactly `updateCheck` followed by
    `updateAct` when no other operation is interleaved between the two. -/
theorem updateItem_is_check_then_act (st : AppState) (sp : Span) (idStr newName : String)
    (i : Int) (item : Item)
    (hp : atoi idStr = some i) (hl : updateCheck st i = some item) :
    (updateItem st sp idStr (some newName)).1 = updateAct st i item newName := by
  have hl2 : mapLoad st.store i = some item := hl
  simp [updateItem, hp, hl2, updateAct]

/-- Claim C9, evaluated at the failing input: starting from a store holding id
    1, update's existence check succeeds, then a whole delete of id 1 completes
    (returning success and removing the entry), and update's deferred write
    then re-inserts id 1 — the deleted id is resurrected, so update/delete are
    not a single atomic check-and-mutate. -/
theorem update_delete_resurrection :
    updateCheck { store := [((1 : Int), { id := 1, name := "widget" })], idSeq := 1 } 1 =
      some { id := 1, name := "widget" } ∧
    deleteStep { store := [((1 : Int), { id := 1, name := "widget" })], idSeq := 1 } 1 =
      ({ store := [], idSeq := 1 }, true) ∧
    mapLoad (updateAct { store := [], idSeq := 1 } 1 { id := 1, name := "widget" } "v2").store 1 =
      some { id := 1, name := "v2" } :=
  ⟨rfl, rfl, rfl⟩

/-- Claim C10: handler runs that answer an error (400 or 404) leave the shared
    state — the store map and the id counter — exactly as it was: get never
    mutates it, and update and delete mutate it only on their success paths. -/
theorem error_outcome_atomic (st : AppState) (sp : Span) (idStr : String)
    (body : Option String) :
    (getItem st sp idStr).1 = st ∧
    ((updateItem st sp idStr body).2.2.status = 400 ∨
        (updateItem st sp idStr body).2.2.status = 404 →
      (updateItem st sp idStr body).1 = st) ∧
    ((deleteItem st sp idStr).2.2.status = 400 ∨
        (deleteItem st sp idStr).2.2.status = 404 →
      (deleteItem st sp idStr).1 = st) := by
  refine ⟨?_, ?_, ?_⟩
  · cases hA : atoi idStr with
    | none => simp [getItem, hA, respondError]
    | some i =>
      cases hL : mapLoad st.store i with
      | none => simp [getItem, hA, hL, respondError]
      | some item => simp [getItem, hA, hL]
  · intro h
    cases hA : atoi idStr with
    | none => simp [updateItem, hA, respondError]
    | some i =>
      cases hL : mapLoad st.store i with
      | none => simp [updateItem, hA, hL, respondError]
      | some item =>
        cases body with
        | none => simp [updateItem, hA, hL, respondError]
        | some newName =>
          exfalso
          simp [updateItem, hA, hL] at h
  · intro h
    cases hA : atoi idStr with
    | none => simp [deleteItem, hA, respondError]
    | some i =>
      cases hL : mapLoad st.store i with
      | none => simp [deleteItem, hA, hL, respondError]
      | some item =>
        exfalso
        simp [deleteItem, hA, hL] at h

/-- Claim C10 witness: an update of the absent id 999 answers 404 and leaves a
    one-entry state untouched. -/
theorem error_outcome_atomic_witness :
    (updateItem { store := [((1 : Int), { id := 1, name := "widget" })], idSeq := 1 }
        { events := [], status := SpanStatus.unset } "999" (some "x")).2.2.status = 404 ∧
    (updateItem { store := [((1 : Int), { id := 1, name := "widget" })], idSeq := 1 }
        { events := [], status := SpanStatus.unset } "999" (some "x")).1 =
      { store := [((1 : Int), { id := 1, name := "widget" })], idSeq := 1 } :=
  ⟨by decide,
   (error_outcome_atomic { store := [((1 : Int), { id := 1, name := "widget" })], idSeq := 1 }
      { events := [], status := SpanStatus.unset } "999" (some "x")).2.1
      (Or.inr (by decide))⟩

end HttpTraceExample
